import Mathlib

/-!
# Verification of the solar-audio engine core

A shallow embedding of the real-time audio engine (`src/engine/src/`):
the recorder state machine (`recorder.rs`), the per-track polyphonic
synthesizer (`synth.rs`), the transport / mixing graph (`audio_graph.rs`)
and the track-volume API (`api.rs`).

Numeric model: `f32`/`f64` values are modelled as exact rationals (ℚ).
Machine floating-point rounding is not modelled; float literals are read
at their decimal value.  Transcendental library functions (`sin`, `cos`,
`exp`, `powf`) and the `f32` constant `PI` have no exact rational
counterpart, so the embedding is parametric over an oracle structure
`RealOps` supplying them; every theorem below holds for an arbitrary
oracle.  Rust `as u64` / `as usize` casts of nonnegative floats truncate
toward zero, modelled by `ratToU64`.  Mutexes always succeed in this
single-threaded model (the lock-failure fallbacks in the source are
dead in that model), and atomics are plain fields.
-/

namespace SolarAudio

/-- Rust `as u64` (or `as usize`) cast of an `f64`: truncation toward zero,
with negative values saturating to 0 (the embedding does not model the
upper saturation bound, which is never reached here). -/
def ratToU64 (q : ℚ) : ℕ := (⌊q⌋).toNat

/-- Rust `f32::clamp(lo, hi)` / `f64::clamp`: if below `lo` take `lo`,
if above `hi` take `hi`, else the value itself. -/
def clampQ (x lo hi : ℚ) : ℚ := if x < lo then lo else if x > hi then hi else x

/-- Modelled from the spec: `audio_file.rs` is not under `src/`; the spec
fixes "the engine's fixed internal sample rate", and the source comments in
`recorder.rs` and the constant in `synth.rs` identify it as 48 kHz. -/
def TARGET_SAMPLE_RATE : ℕ := 48000

/-- Oracle for the transcendental `f32`/`f64` library functions used by the
source.  `piq` stands for the `f32` constant `PI`; `parsef32` stands for
`str::parse::<f32>`.  All are opaque parameters of the embedding. -/
structure RealOps where
  sinq : ℚ → ℚ
  cosq : ℚ → ℚ
  expq : ℚ → ℚ
  pow2q : ℚ → ℚ
  piq : ℚ
  parsef32 : String → Option ℚ

/-- Modelled from the spec: `audio_file.rs` is not under `src/`.  An audio
clip is an "immutable decoded sample buffer (interleaved … f32), channel
count, sample rate, total duration" (§3).  The `file_path` field of the
source struct is an IO-derived string with no behavioural role and is
omitted. -/
structure AudioClip where
  samples : List ℚ
  channels : ℕ
  sample_rate : ℕ
  duration_seconds : ℚ
deriving DecidableEq

/-- Modelled from the spec: `audio_file.rs` is not under `src/`.
`get_sample(frame, channel)` reads one sample of an interleaved buffer,
returning nothing out of range. -/
def AudioClip.get_sample (c : AudioClip) (frame ch : ℕ) : Option ℚ :=
  c.samples.get? (frame * c.channels + ch)

/-! ## Recorder (`recorder.rs`) -/

/-- `RecordingState` from `recorder.rs`. -/
inductive RecordingState where
  | Idle
  | CountingIn
  | Recording
deriving DecidableEq, Repr

/-- The `Recorder` state (`recorder.rs`): all `Arc<Mutex<_>>` / atomic
fields flattened into one record. -/
structure Recorder where
  state : RecordingState
  recorded_samples : List ℚ
  sample_counter : ℕ
  count_in_bars : ℕ
  tempo : ℚ
  metronome_enabled : Bool
  time_signature : ℕ
deriving DecidableEq

/-- `Recorder::new`. -/
def Recorder.new : Recorder :=
  { state := .Idle
    recorded_samples := []
    sample_counter := 0
    count_in_bars := 2
    tempo := 120
    metronome_enabled := true
    time_signature := 4 }

/-- `Recorder::start_recording`. -/
def Recorder.start_recording (r : Recorder) : Except String Recorder :=
  if r.state ≠ RecordingState.Idle then
    .error "Already recording or counting in"
  else
    let r := { r with recorded_samples := [], sample_counter := 0 }
    if r.count_in_bars > 0 then
      .ok { r with state := .CountingIn }
    else
      .ok { r with state := .Recording }

/-- `Recorder::stop_recording`: returns the (possibly unchanged) recorder
and the optional finished clip.  Note the source returns `Ok(None)` when
idle, not an error. -/
def Recorder.stop_recording (r : Recorder) :
    Except String (Recorder × Option AudioClip) :=
  if r.state = RecordingState.Idle then
    .ok (r, none)
  else
    let r' := { r with state := RecordingState.Idle }
    if r.recorded_samples.isEmpty then
      .ok (r', none)
    else
      let frame_count := r.recorded_samples.length / 2
      .ok (r', some
        { samples := r.recorded_samples
          channels := 2
          sample_rate := TARGET_SAMPLE_RATE
          duration_seconds := (frame_count : ℚ) / (TARGET_SAMPLE_RATE : ℚ) })

/-- `Recorder::set_tempo`: clamps to [20, 300] BPM. -/
def Recorder.set_tempo (r : Recorder) (bpm : ℚ) : Recorder :=
  { r with tempo := clampQ bpm 20 300 }

/-- `Recorder::get_tempo`. -/
def Recorder.get_tempo (r : Recorder) : ℚ := r.tempo

/-- `Recorder::reset_metronome`: zeroes the sample counter. -/
def Recorder.reset_metronome (r : Recorder) : Recorder :=
  { r with sample_counter := 0 }

/-- `samples_per_beat` as computed inside `process_frame`:
`(60.0 / tempo * TARGET_SAMPLE_RATE as f64) as u64`. -/
def Recorder.samples_per_beat (r : Recorder) : ℕ :=
  ratToU64 (60 / r.tempo * (TARGET_SAMPLE_RATE : ℚ))

/-- `samples_per_bar = samples_per_beat * time_signature`. -/
def Recorder.samples_per_bar (r : Recorder) : ℕ :=
  r.samples_per_beat * r.time_signature

/-- `RecorderCallbackRefs::process_frame`: one frame of metronome
generation, count-in bookkeeping and capture.  Debug logging elided. -/
def Recorder.process_frame (R : RealOps) (r : Recorder)
    (input_left input_right : ℚ) (is_playing : Bool) : Recorder × (ℚ × ℚ) :=
  let current_state := r.state
  let should_tick := is_playing || decide (current_state ≠ RecordingState.Idle)
  let sample_idx := r.sample_counter
  let r := if should_tick then { r with sample_counter := r.sample_counter + 1 } else r
  let samples_per_beat := r.samples_per_beat
  let samples_per_bar := r.samples_per_bar
  let metronome_output : ℚ :=
    if r.metronome_enabled then
      let position_in_bar := sample_idx % samples_per_bar
      let beat_in_bar := position_in_bar / samples_per_beat
      let position_in_beat := position_in_bar % samples_per_beat
      if position_in_beat < 4000 then
        let t : ℚ := (position_in_beat : ℚ) / (TARGET_SAMPLE_RATE : ℚ)
        let freq : ℚ := if beat_in_bar = 0 then 1200 else 800
        let envl : ℚ := (1 - (position_in_beat : ℚ) / 4000) ^ 2
        R.sinq (2 * R.piq * freq * t) * (3 / 5) * envl
      else 0
    else 0
  match current_state with
  | RecordingState.CountingIn =>
      let count_in_samples := samples_per_bar * r.count_in_bars
      let r :=
        if sample_idx ≥ count_in_samples then
          { r with state := RecordingState.Recording, sample_counter := 0 }
        else r
      (r, (metronome_output, metronome_output))
  | RecordingState.Recording =>
      ({ r with recorded_samples := r.recorded_samples ++ [input_left, input_right] },
       (metronome_output, metronome_output))
  | RecordingState.Idle =>
      (r, (metronome_output, metronome_output))

/-! ## Per-track synthesizer (`synth.rs`) -/

/-- `MAX_VOICES` from `synth.rs`. -/
def MAX_VOICES : ℕ := 16

/-- `SAMPLE_RATE` from `synth.rs` (48 kHz, as ℚ). -/
def SAMPLE_RATE : ℚ := 48000

/-- `OscillatorType` from `synth.rs`. -/
inductive OscillatorType where
  | Sine
  | Saw
  | Square
  | Triangle
deriving DecidableEq, Repr

/-- `OscillatorType::from_str` (unknown strings default to sine). -/
def OscillatorType.from_str (s : String) : OscillatorType :=
  match s.toLower with
  | "sine" => .Sine
  | "saw" => .Saw
  | "square" => .Square
  | "triangle" => .Triangle
  | _ => .Sine

/-- `EnvelopeState` from `synth.rs`. -/
inductive EnvelopeState where
  | Idle
  | Attack
  | Decay
  | Sustain
  | Release
deriving DecidableEq, Repr

/-- `EnvelopeParams` (seconds; sustain is a level). -/
structure EnvelopeParams where
  attack : ℚ
  decay : ℚ
  sustain : ℚ
  release : ℚ
deriving DecidableEq

/-- `EnvelopeParams::default()`: 10 ms / 100 ms / 0.7 / 200 ms. -/
def EnvelopeParams.default : EnvelopeParams :=
  { attack := 1 / 100, decay := 1 / 10, sustain := 7 / 10, release := 1 / 5 }

/-- `Envelope` from `synth.rs` (`time` counts samples, stored as a float). -/
structure Envelope where
  params : EnvelopeParams
  state : EnvelopeState
  level : ℚ
  time : ℚ
deriving DecidableEq

/-- `Envelope::new`. -/
def Envelope.new (p : EnvelopeParams) : Envelope :=
  { params := p, state := .Idle, level := 0, time := 0 }

/-- `Envelope::note_on`: enter Attack, reset time, keep the level. -/
def Envelope.note_on (e : Envelope) : Envelope :=
  { e with state := .Attack, time := 0 }

/-- `Envelope::note_off`: enter Release, reset time. -/
def Envelope.note_off (e : Envelope) : Envelope :=
  { e with state := .Release, time := 0 }

/-- `Envelope::process`: one sample of the ADSR automaton; returns the new
envelope and the output level (the stored level clamped to [0, 1]). -/
def Envelope.process (e : Envelope) : Envelope × ℚ :=
  let e :=
    match e.state with
    | EnvelopeState.Idle => { e with level := 0 }
    | EnvelopeState.Attack =>
        let attack_samples := e.params.attack * SAMPLE_RATE
        if attack_samples > 0 then
          let lvl := e.time / attack_samples
          if lvl ≥ 1 then
            { e with level := 1, state := .Decay, time := 0 }
          else
            { e with level := lvl }
        else
          { e with level := 1, state := .Decay, time := 0 }
    | EnvelopeState.Decay =>
        let decay_samples := e.params.decay * SAMPLE_RATE
        if decay_samples > 0 then
          let decay_amount := 1 - e.params.sustain
          let lvl := 1 - e.time / decay_samples * decay_amount
          if lvl ≤ e.params.sustain then
            { e with level := e.params.sustain, state := .Sustain }
          else
            { e with level := lvl }
        else
          { e with level := e.params.sustain, state := .Sustain }
    | EnvelopeState.Sustain => { e with level := e.params.sustain }
    | EnvelopeState.Release =>
        let release_samples := e.params.release * SAMPLE_RATE
        if release_samples > 0 then
          let lvl := e.level * (1 - e.time / release_samples)
          if lvl ≤ 1 / 10000 then
            { e with level := 0, state := .Idle }
          else
            { e with level := lvl }
        else
          { e with level := 0, state := .Idle }
  let e := { e with time := e.time + 1 }
  (e, min (max e.level 0) 1)

/-- `Envelope::is_active`. -/
def Envelope.is_active (e : Envelope) : Bool := e.state ≠ EnvelopeState.Idle

/-- `midi_note_to_frequency`: `440 * 2^((note - 69) / 12)`. -/
def midi_note_to_frequency (R : RealOps) (note : ℕ) : ℚ :=
  440 * R.pow2q (((note : ℚ) - 69) / 12)

/-- `FilterType` from `synth.rs`. -/
inductive FilterType where
  | LowPass
  | HighPass
  | BandPass
deriving DecidableEq, Repr

/-- `FilterType::from_str` (unknown strings default to low-pass). -/
def FilterType.from_str (s : String) : FilterType :=
  match s.toLower with
  | "lowpass" => .LowPass
  | "highpass" => .HighPass
  | "bandpass" => .BandPass
  | _ => .LowPass

/-- `BiquadFilter` from `synth.rs`: cookbook biquad with its coefficient
and delay-line state. -/
structure BiquadFilter where
  filter_type : FilterType
  cutoff : ℚ
  resonance : ℚ
  sample_rate : ℚ
  a0 : ℚ
  a1 : ℚ
  a2 : ℚ
  b1 : ℚ
  b2 : ℚ
  x1 : ℚ
  x2 : ℚ
  y1 : ℚ
  y2 : ℚ
deriving DecidableEq

/-- `BiquadFilter::update_coefficients` (cookbook formulas; cutoff 0–1 is
mapped to 50 Hz·e^(5.3·cutoff), resonance 0–1 to Q = 0.5 + 9.5·resonance). -/
def BiquadFilter.update_coefficients (R : RealOps) (f : BiquadFilter) : BiquadFilter :=
  let freq := 50 * R.expq (53 / 10 * f.cutoff)
  let freq := min freq (f.sample_rate * (49 / 100))
  let q := 1 / 2 + f.resonance * (19 / 2)
  let omega := 2 * R.piq * freq / f.sample_rate
  let sin_omega := R.sinq omega
  let cos_omega := R.cosq omega
  let alpha := sin_omega / (2 * q)
  match f.filter_type with
  | FilterType.LowPass =>
      let b0 := (1 - cos_omega) / 2
      let b1 := 1 - cos_omega
      let b2 := (1 - cos_omega) / 2
      let a0 := 1 + alpha
      let a1 := -2 * cos_omega
      let a2 := 1 - alpha
      { f with a0 := b0 / a0, a1 := b1 / a0, a2 := b2 / a0, b1 := a1 / a0, b2 := a2 / a0 }
  | FilterType.HighPass =>
      let b0 := (1 + cos_omega) / 2
      let b1 := -(1 + cos_omega)
      let b2 := (1 + cos_omega) / 2
      let a0 := 1 + alpha
      let a1 := -2 * cos_omega
      let a2 := 1 - alpha
      { f with a0 := b0 / a0, a1 := b1 / a0, a2 := b2 / a0, b1 := a1 / a0, b2 := a2 / a0 }
  | FilterType.BandPass =>
      let b0 := alpha
      let b1 : ℚ := 0
      let b2 := -alpha
      let a0 := 1 + alpha
      let a1 := -2 * cos_omega
      let a2 := 1 - alpha
      { f with a0 := b0 / a0, a1 := b1 / a0, a2 := b2 / a0, b1 := a1 / a0, b2 := a2 / a0 }

/-- `BiquadFilter::new(sample_rate)`: low-pass, cutoff 0.8, resonance 0.2,
coefficients computed. -/
def BiquadFilter.new (R : RealOps) (sample_rate : ℚ) : BiquadFilter :=
  BiquadFilter.update_coefficients R
    { filter_type := .LowPass, cutoff := 4 / 5, resonance := 1 / 5
      sample_rate := sample_rate
      a0 := 1, a1 := 0, a2 := 0, b1 := 0, b2 := 0
      x1 := 0, x2 := 0, y1 := 0, y2 := 0 }

/-- `BiquadFilter::set_filter_type`. -/
def BiquadFilter.set_filter_type (R : RealOps) (f : BiquadFilter) (t : FilterType) : BiquadFilter :=
  BiquadFilter.update_coefficients R { f with filter_type := t }

/-- `BiquadFilter::set_cutoff` (clamped to [0, 1]). -/
def BiquadFilter.set_cutoff (R : RealOps) (f : BiquadFilter) (c : ℚ) : BiquadFilter :=
  BiquadFilter.update_coefficients R { f with cutoff := clampQ c 0 1 }

/-- `BiquadFilter::set_resonance` (clamped to [0, 1]). -/
def BiquadFilter.set_resonance (R : RealOps) (f : BiquadFilter) (rres : ℚ) : BiquadFilter :=
  BiquadFilter.update_coefficients R { f with resonance := clampQ rres 0 1 }

/-- `BiquadFilter::process`: direct-form-I biquad step. -/
def BiquadFilter.process (f : BiquadFilter) (input : ℚ) : BiquadFilter × ℚ :=
  let output := f.a0 * input + f.a1 * f.x1 + f.a2 * f.x2 - f.b1 * f.y1 - f.b2 * f.y2
  ({ f with x2 := f.x1, x1 := input, y2 := f.y1, y1 := output }, output)

/-- `generate_waveform` shared by `DualOscillator`. -/
def generate_waveform (R : RealOps) (osc_type : OscillatorType) (phase : ℚ) : ℚ :=
  match osc_type with
  | OscillatorType.Sine => R.sinq (phase * 2 * R.piq)
  | OscillatorType.Saw => 2 * phase - 1
  | OscillatorType.Square => if phase < 1 / 2 then 1 else -1
  | OscillatorType.Triangle => 4 * |phase - 1 / 2| - 1

/-- `DualOscillator` from `synth.rs`. -/
structure DualOscillator where
  osc1_type : OscillatorType
  osc2_type : OscillatorType
  osc1_level : ℚ
  osc2_level : ℚ
  osc1_detune : ℚ
  osc2_detune : ℚ
  phase1 : ℚ
  phase2 : ℚ
  frequency : ℚ
  sample_rate : ℚ
deriving DecidableEq

/-- `DualOscillator::new`. -/
def DualOscillator.new (sample_rate : ℚ) : DualOscillator :=
  { osc1_type := .Saw, osc2_type := .Square
    osc1_level := 4 / 5, osc2_level := 2 / 5
    osc1_detune := 0, osc2_detune := 7
    phase1 := 0, phase2 := 0
    frequency := 440, sample_rate := sample_rate }

/-- `DualOscillator::set_frequency`. -/
def DualOscillator.set_frequency (o : DualOscillator) (f : ℚ) : DualOscillator :=
  { o with frequency := f }

/-- `DualOscillator::reset_phase`. -/
def DualOscillator.reset_phase (o : DualOscillator) : DualOscillator :=
  { o with phase1 := 0, phase2 := 0 }

/-- `DualOscillator::process`: two detuned oscillators, each sampled at its
current phase, phases advanced (single conditional wrap), outputs mixed by
level. -/
def DualOscillator.process (R : RealOps) (o : DualOscillator) : DualOscillator × ℚ :=
  let detune1_ratio := R.pow2q (o.osc1_detune / 1200)
  let freq1 := o.frequency * detune1_ratio
  let sample1 := generate_waveform R o.osc1_type o.phase1
  let phase1 := o.phase1 + freq1 / o.sample_rate
  let phase1 := if phase1 ≥ 1 then phase1 - 1 else phase1
  let detune2_ratio := R.pow2q (o.osc2_detune / 1200)
  let freq2 := o.frequency * detune2_ratio
  let sample2 := generate_waveform R o.osc2_type o.phase2
  let phase2 := o.phase2 + freq2 / o.sample_rate
  let phase2 := if phase2 ≥ 1 then phase2 - 1 else phase2
  ({ o with phase1 := phase1, phase2 := phase2 },
   sample1 * o.osc1_level + sample2 * o.osc2_level)

/-- `TrackVoice` from `synth.rs`. -/
structure TrackVoice where
  oscillator : DualOscillator
  envelope : Envelope
  filter : BiquadFilter
  note : ℕ
  is_active : Bool
deriving DecidableEq

/-- `TrackVoice::new`. -/
def TrackVoice.new (R : RealOps) (sample_rate : ℚ) : TrackVoice :=
  { oscillator := DualOscillator.new sample_rate
    envelope := Envelope.new EnvelopeParams.default
    filter := BiquadFilter.new R sample_rate
    note := 0
    is_active := false }

/-- `TrackVoice::note_on`: set the equal-temperament frequency, reset the
oscillator phase, trigger the envelope attack, mark active (velocity is
unused by the source). -/
def TrackVoice.note_on (R : RealOps) (v : TrackVoice) (note : ℕ) (_velocity : ℕ) : TrackVoice :=
  let freq := midi_note_to_frequency R note
  { v with
    oscillator := (v.oscillator.set_frequency freq).reset_phase
    envelope := v.envelope.note_on
    note := note
    is_active := true }

/-- `TrackVoice::note_off`: envelope to Release. -/
def TrackVoice.note_off (v : TrackVoice) : TrackVoice :=
  { v with envelope := v.envelope.note_off }

/-- `TrackVoice::process`: if the envelope is idle the voice deactivates and
outputs 0; otherwise oscillator → envelope scaling → filter. -/
def TrackVoice.process (R : RealOps) (v : TrackVoice) : TrackVoice × ℚ :=
  if v.envelope.is_active then
    let oscp := v.oscillator.process R
    let envp := v.envelope.process
    let enveloped := oscp.2 * envp.2
    let filtp := v.filter.process enveloped
    ({ v with oscillator := oscp.1, envelope := envp.1, filter := filtp.1 }, filtp.2)
  else
    ({ v with is_active := false }, 0)

/-- `TrackSynthesizer` from `synth.rs`: a fixed bank of voices plus the
shared parameters applied to all of them. -/
structure TrackSynthesizer where
  voices : List TrackVoice
  osc1_type : OscillatorType
  osc1_level : ℚ
  osc1_detune : ℚ
  osc2_type : OscillatorType
  osc2_level : ℚ
  osc2_detune : ℚ
  filter_type : FilterType
  filter_cutoff : ℚ
  filter_resonance : ℚ
  envelope_params : EnvelopeParams
  sample_rate : ℚ
deriving DecidableEq

/-- `TrackSynthesizer::new(sample_rate)`: `MAX_VOICES` default voices. -/
def TrackSynthesizer.new (R : RealOps) (sample_rate : ℚ) : TrackSynthesizer :=
  { voices := List.replicate MAX_VOICES (TrackVoice.new R sample_rate)
    osc1_type := .Saw, osc1_level := 4 / 5, osc1_detune := 0
    osc2_type := .Square, osc2_level := 2 / 5, osc2_detune := 7
    filter_type := .LowPass, filter_cutoff := 4 / 5, filter_resonance := 1 / 5
    envelope_params := EnvelopeParams.default
    sample_rate := sample_rate }

/-- `TrackSynthesizer::set_parameter`: string-keyed update of the shared
parameter, pushed into every voice (float parsing via the oracle). -/
def TrackSynthesizer.set_parameter (R : RealOps) (s : TrackSynthesizer)
    (key value : String) : TrackSynthesizer :=
  match key with
  | "osc1_type" =>
      let t := OscillatorType.from_str value
      { s with
        osc1_type := t
        voices := s.voices.map fun v => { v with oscillator := { v.oscillator with osc1_type := t } } }
  | "osc1_level" =>
      match R.parsef32 value with
      | some val =>
          let lv := clampQ val 0 1
          { s with
            osc1_level := lv
            voices := s.voices.map fun v => { v with oscillator := { v.oscillator with osc1_level := lv } } }
      | none => s
  | "osc1_detune" =>
      match R.parsef32 value with
      | some val =>
          let d := clampQ val (-50) 50
          { s with
            osc1_detune := d
            voices := s.voices.map fun v => { v with oscillator := { v.oscillator with osc1_detune := d } } }
      | none => s
  | "osc2_type" =>
      let t := OscillatorType.from_str value
      { s with
        osc2_type := t
        voices := s.voices.map fun v => { v with oscillator := { v.oscillator with osc2_type := t } } }
  | "osc2_level" =>
      match R.parsef32 value with
      | some val =>
          let lv := clampQ val 0 1
          { s with
            osc2_level := lv
            voices := s.voices.map fun v => { v with oscillator := { v.oscillator with osc2_level := lv } } }
      | none => s
  | "osc2_detune" =>
      match R.parsef32 value with
      | some val =>
          let d := clampQ val (-50) 50
          { s with
            osc2_detune := d
            voices := s.voices.map fun v => { v with oscillator := { v.oscillator with osc2_detune := d } } }
      | none => s
  | "filter_type" =>
      let t := FilterType.from_str value
      { s with
        filter_type := t
        voices := s.voices.map fun v => { v with filter := v.filter.set_filter_type R t } }
  | "filter_cutoff" =>
      match R.parsef32 value with
      | some val =>
          { s with
            filter_cutoff := val
            voices := s.voices.map fun v => { v with filter := v.filter.set_cutoff R val } }
      | none => s
  | "filter_resonance" =>
      match R.parsef32 value with
      | some val =>
          { s with
            filter_resonance := val
            voices := s.voices.map fun v => { v with filter := v.filter.set_resonance R val } }
      | none => s
  | "env_attack" =>
      match R.parsef32 value with
      | some val =>
          let a := max val (1 / 1000)
          { s with
            envelope_params := { s.envelope_params with attack := a }
            voices := s.voices.map fun v =>
              { v with envelope := { v.envelope with params := { v.envelope.params with attack := a } } } }
      | none => s
  | "env_decay" =>
      match R.parsef32 value with
      | some val =>
          let d := max val (1 / 1000)
          { s with
            envelope_params := { s.envelope_params with decay := d }
            voices := s.voices.map fun v =>
              { v with envelope := { v.envelope with params := { v.envelope.params with decay := d } } } }
      | none => s
  | "env_sustain" =>
      match R.parsef32 value with
      | some val =>
          let su := clampQ val 0 1
          { s with
            envelope_params := { s.envelope_params with sustain := su }
            voices := s.voices.map fun v =>
              { v with envelope := { v.envelope with params := { v.envelope.params with sustain := su } } } }
      | none => s
  | "env_release" =>
      match R.parsef32 value with
      | some val =>
          let rl := max val (1 / 1000)
          { s with
            envelope_params := { s.envelope_params with release := rl }
            voices := s.voices.map fun v =>
              { v with envelope := { v.envelope with params := { v.envelope.params with release := rl } } } }
      | none => s
  | _ => s

/-- `TrackSynthesizer::find_free_voice`, expressed as the chosen index:
the first inactive slot, else slot 0 (simple stealing). -/
def TrackSynthesizer.find_free_voice_index (s : TrackSynthesizer) : ℕ :=
  let i := s.voices.findIdx fun v => !v.is_active
  if i < s.voices.length then i else 0

/-- `TrackSynthesizer::note_on`: trigger the chosen voice. -/
def TrackSynthesizer.note_on (R : RealOps) (s : TrackSynthesizer)
    (note velocity : ℕ) : TrackSynthesizer :=
  let i := s.find_free_voice_index
  match s.voices.get? i with
  | some v => { s with voices := s.voices.set i (v.note_on R note velocity) }
  | none => s

/-- `TrackSynthesizer::note_off`: release every active voice playing the
note. -/
def TrackSynthesizer.note_off (s : TrackSynthesizer) (note : ℕ) (_velocity : ℕ) :
    TrackSynthesizer :=
  { s with voices := s.voices.map fun v =>
      if v.is_active ∧ v.note = note then v.note_off else v }

/-- The voice loop of `TrackSynthesizer::process_sample`: active voices are
processed and summed, inactive voices are untouched. -/
def processVoices (R : RealOps) : List TrackVoice → ℚ → List TrackVoice × ℚ
  | [], acc => ([], acc)
  | v :: vs, acc =>
      let va :=
        if v.is_active then
          let p := v.process R
          (p.1, acc + p.2)
        else (v, acc)
      let rest := processVoices R vs va.2
      (va.1 :: rest.1, rest.2)

/-- `TrackSynthesizer::process_sample`: sum of the active voices scaled by
the fixed 0.5 output gain. -/
def TrackSynthesizer.process_sample (R : RealOps) (s : TrackSynthesizer) :
    TrackSynthesizer × ℚ :=
  let p := processVoices R s.voices 0
  ({ s with voices := p.1 }, p.2 * (1 / 2))

/-- `TrackSynthesizer::active_voice_count`. -/
def TrackSynthesizer.active_voice_count (s : TrackSynthesizer) : ℕ :=
  s.voices.countP fun v => v.is_active

/-- `TrackSynthManager` from `synth.rs`: per-track synthesizers keyed by
track id (the `HashMap` modelled as an association list). -/
structure TrackSynthManager where
  synths : List (ℕ × TrackSynthesizer)
  sample_rate : ℚ

/-- `TrackSynthManager::new`. -/
def TrackSynthManager.new (sample_rate : ℚ) : TrackSynthManager :=
  { synths := [], sample_rate := sample_rate }

/-- Key lookup (`self.synths.get(&track_id)`). -/
def TrackSynthManager.find_synth (m : TrackSynthManager) (track_id : ℕ) :
    Option TrackSynthesizer :=
  (m.synths.find? fun p => p.1 = track_id).map (·.2)

/-- In-place update of the entry for `track_id` (the effect of mutating
through `get_mut`). -/
def TrackSynthManager.set_synth (m : TrackSynthManager) (track_id : ℕ)
    (s : TrackSynthesizer) : TrackSynthManager :=
  { m with synths := m.synths.map fun p => if p.1 = track_id then (track_id, s) else p }

/-- `TrackSynthManager::create_synth`. -/
def TrackSynthManager.create_synth (R : RealOps) (m : TrackSynthManager)
    (track_id : ℕ) : TrackSynthManager :=
  { m with synths := (track_id, TrackSynthesizer.new R m.sample_rate) ::
      m.synths.filter fun p => p.1 ≠ track_id }

/-- `TrackSynthManager::set_parameter`: silently ignores an unknown id. -/
def TrackSynthManager.set_parameter (R : RealOps) (m : TrackSynthManager)
    (track_id : ℕ) (key value : String) : TrackSynthManager :=
  match m.find_synth track_id with
  | some s => m.set_synth track_id (s.set_parameter R key value)
  | none => m

/-- `TrackSynthManager::note_on`: silently ignores an unknown id. -/
def TrackSynthManager.note_on (R : RealOps) (m : TrackSynthManager)
    (track_id note velocity : ℕ) : TrackSynthManager :=
  match m.find_synth track_id with
  | some s => m.set_synth track_id (s.note_on R note velocity)
  | none => m

/-- `TrackSynthManager::note_off`: silently ignores an unknown id
(the `velocity` argument is unused by the synthesizer). -/
def TrackSynthManager.note_off (m : TrackSynthManager)
    (track_id note velocity : ℕ) : TrackSynthManager :=
  match m.find_synth track_id with
  | some s => m.set_synth track_id (s.note_off note velocity)
  | none => m

/-- `TrackSynthManager::process_sample`: 0.0 for an unknown id. -/
def TrackSynthManager.process_sample (R : RealOps) (m : TrackSynthManager)
    (track_id : ℕ) : TrackSynthManager × ℚ :=
  match m.find_synth track_id with
  | some s =>
      let p := s.process_sample R
      (m.set_synth track_id p.1, p.2)
  | none => (m, 0)

/-- Modelled from the spec: `AudioGraph::stop` calls
`all_notes_off_all_tracks`, whose definition is not under `src/`.  The spec
(§4.3) describes it as the "all notes off" panic function that guarantees
no stuck notes survive a stop, and §3 says voices are "forcibly retired" by
it; we model it as retiring every voice of every per-track synthesizer. -/
def TrackSynthManager.all_notes_off_all_tracks (m : TrackSynthManager) :
    TrackSynthManager :=
  { m with synths := m.synths.map fun p =>
      (p.1, { p.2 with voices := p.2.voices.map fun v =>
        { v with is_active := false
                 envelope := { v.envelope with state := .Idle, level := 0 } } }) }

/-! ## Effects (modelled) and MIDI clips (modelled) -/

/-- Modelled from the spec: `effects.rs` is not under `src/`.  The spec
(§4.2) fixes one uniform per-effect contract —
`process_frame(left, right) -> (left, right)`, "pure function of
effect-internal state plus input, single stereo sample at a time" — so an
effect is modelled as an internal memory together with a step function of
that memory and the input frame. -/
structure Effect where
  mem : List ℚ
  step : (ℚ × ℚ) → List ℚ → (ℚ × ℚ) × List ℚ

/-- The uniform `process_frame` contract of an effect instance. -/
def Effect.process_frame (e : Effect) (l r : ℚ) : Effect × (ℚ × ℚ) :=
  let (out, m') := e.step (l, r) e.mem
  ({ e with mem := m' }, out)

/-- Modelled from the spec: the effect registry (`EffectManager` in
`effects.rs`, not under `src/`) provides id-keyed lookup of effect
instances; modelled as an association list. -/
def EffectManager := List (ℕ × Effect)

/-- `EffectManager::get_effect`. -/
def EffectManager.get_effect (em : EffectManager) (id : ℕ) : Option Effect :=
  (List.find? (fun p => p.1 = id) em).map (·.2)

/-- In-place update of the effect stored under `id` (the effect of mutating
through the returned shared handle). -/
def EffectManager.set_effect (em : EffectManager) (id : ℕ) (e : Effect) :
    EffectManager :=
  List.map (fun p => if p.1 = id then (id, e) else p) em

/-- The FX-chain loop shared by both rendering paths in `audio_graph.rs`:
effects applied in chain order, missing ids skipped, each effect's state
written back. -/
def processFxChain (em : EffectManager) (chain : List ℕ) (l r : ℚ) :
    EffectManager × (ℚ × ℚ) :=
  chain.foldl
    (fun acc id =>
      let em := acc.1
      match em.get_effect id with
      | some e =>
          let p := e.process_frame acc.2.1 acc.2.2
          (em.set_effect id p.1, p.2)
      | none => acc)
    (em, (l, r))

/-- Modelled from the spec: `midi.rs` is not under `src/`.  A MIDI event is
a timestamped note-on/note-off (§3). -/
inductive MidiEventType where
  | NoteOn (note velocity : ℕ)
  | NoteOff (note velocity : ℕ)
deriving DecidableEq

/-- Modelled from the spec: a timestamped MIDI event (timestamp in samples
relative to clip start). -/
structure MidiEvent where
  timestamp_samples : ℕ
  event_type : MidiEventType
deriving DecidableEq

/-- Modelled from the spec: a MIDI clip is "a duration (in samples) plus an
ordered list of timestamped note-on/note-off events" (§3). -/
structure MidiClip where
  duration_samples : ℕ
  events : List MidiEvent
deriving DecidableEq

/-! ## Timeline placements and track snapshots (`audio_graph.rs`) -/

/-- `TimelineClip` (from the `track` module, fields as used by
`audio_graph.rs`): a placed audio clip. -/
structure TimelineClip where
  id : ℕ
  clip : AudioClip
  start_time : ℚ
  offset : ℚ
  duration : Option ℚ
deriving DecidableEq

/-- `TimelineMidiClip`: a placed MIDI clip. -/
structure TimelineMidiClip where
  id : ℕ
  clip : MidiClip
  start_time : ℚ
  track_id : Option ℕ
deriving DecidableEq

/-- `TrackSnapshot` as defined inside both `create_audio_stream` and
`render_offline`: the once-per-buffer copy of one track's mixing state.
`volume_gain`, `pan_left`, `pan_right` are the already-computed gain
values (`track.get_gain()` / `track.get_pan_gains()`). -/
structure TrackSnapshot where
  id : ℕ
  audio_clips : List TimelineClip
  midi_clips : List TimelineMidiClip
  volume_gain : ℚ
  pan_left : ℚ
  pan_right : ℚ
  muted : Bool
  soloed : Bool
  fx_chain : List ℕ
deriving DecidableEq

/-- The audio-clip accumulation loop shared verbatim by both rendering
paths: clips active at the playhead add their left/right sample (mono clips
duplicated to the right channel). -/
def mixAudioClips (clips : List TimelineClip) (playhead_seconds : ℚ) : ℚ × ℚ :=
  clips.foldl
    (fun acc tc =>
      let clip_duration := tc.duration.getD tc.clip.duration_seconds
      let clip_end := tc.start_time + clip_duration
      if playhead_seconds ≥ tc.start_time ∧ playhead_seconds < clip_end then
        let time_in_clip := playhead_seconds - tc.start_time + tc.offset
        let frame_in_clip := ratToU64 (time_in_clip * (TARGET_SAMPLE_RATE : ℚ))
        let accL :=
          match tc.clip.get_sample frame_in_clip 0 with
          | some l => acc.1 + l
          | none => acc.1
        let accR :=
          if tc.clip.channels > 1 then
            match tc.clip.get_sample frame_in_clip 1 with
            | some r => acc.2 + r
            | none => acc.2
          else
            match tc.clip.get_sample frame_in_clip 0 with
            | some l => acc.2 + l
            | none => acc.2
        (accL, accR)
      else acc)
    (0, 0)

/-- The MIDI-event dispatch loop shared verbatim by both rendering paths:
events of active clips whose timestamp matches this exact sample are sent
to the track's synthesizer (the clip-end boundary is inclusive so note-offs
at the exact end still fire).  The source call site passes no velocity to
`note_off`; the argument is unused by the synthesizer and modelled as 0. -/
def dispatchMidiClips (R : RealOps) (sm : TrackSynthManager) (track_id : ℕ)
    (mclips : List TimelineMidiClip) (playhead_frame : ℕ) : TrackSynthManager :=
  mclips.foldl
    (fun sm tmc =>
      let clip_start_samples := ratToU64 (tmc.start_time * (TARGET_SAMPLE_RATE : ℚ))
      let clip_end_samples := clip_start_samples + tmc.clip.duration_samples
      if playhead_frame ≥ clip_start_samples ∧ playhead_frame ≤ clip_end_samples then
        let frame_in_clip := playhead_frame - clip_start_samples
        tmc.clip.events.foldl
          (fun sm ev =>
            if ev.timestamp_samples = frame_in_clip then
              match ev.event_type with
              | MidiEventType.NoteOn note velocity => sm.note_on R track_id note velocity
              | MidiEventType.NoteOff note _ => sm.note_off track_id note 0
            else sm)
          sm
      else sm)
    sm

/-- The mutable engine state threaded through one frame of mixing: the
per-track synthesizer manager, the effect registry and the master limiter
(the limiter satisfies the same `process_frame` contract, §4.2). -/
structure FrameSt where
  synths : TrackSynthManager
  effects : EffectManager
  limiter : Effect

/-- One non-master track's processing for one frame, as in the real-time
callback (`create_audio_stream`, per-frame loop step a): clip accumulation,
MIDI dispatch, synth output added to both channels, track volume gain, pan
gains, FX chain.  Peak metering is accumulated alongside in the source but
does not touch the audio path and is not modelled. -/
def processTrackFrameRealtime (R : RealOps) (st : FrameSt) (snap : TrackSnapshot)
    (playhead_frame : ℕ) : FrameSt × (ℚ × ℚ) :=
  let playhead_seconds : ℚ := (playhead_frame : ℚ) / (TARGET_SAMPLE_RATE : ℚ)
  let (track_left, track_right) := mixAudioClips snap.audio_clips playhead_seconds
  let synths := dispatchMidiClips R st.synths snap.id snap.midi_clips playhead_frame
  let (synths, synth_sample) := synths.process_sample R snap.id
  let track_left := track_left + synth_sample
  let track_right := track_right + synth_sample
  let track_left := track_left * snap.volume_gain
  let track_right := track_right * snap.volume_gain
  let track_left := track_left * snap.pan_left
  let track_right := track_right * snap.pan_right
  let fxp := processFxChain st.effects snap.fx_chain track_left track_right
  ({ st with synths := synths, effects := fxp.1 }, fxp.2)

/-- One non-master track's processing for one frame in `render_offline`
(text identical to the real-time step; the source duplicates the code). -/
def processTrackFrameOffline (R : RealOps) (st : FrameSt) (snap : TrackSnapshot)
    (playhead_frame : ℕ) : FrameSt × (ℚ × ℚ) :=
  let playhead_seconds : ℚ := (playhead_frame : ℚ) / (TARGET_SAMPLE_RATE : ℚ)
  let (track_left, track_right) := mixAudioClips snap.audio_clips playhead_seconds
  let synths := dispatchMidiClips R st.synths snap.id snap.midi_clips playhead_frame
  let (synths, synth_sample) := synths.process_sample R snap.id
  let track_left := track_left + synth_sample
  let track_right := track_right + synth_sample
  let track_left := track_left * snap.volume_gain
  let track_right := track_right * snap.volume_gain
  let track_left := track_left * snap.pan_left
  let track_right := track_right * snap.pan_right
  let fxp := processFxChain st.effects snap.fx_chain track_left track_right
  ({ st with synths := synths, effects := fxp.1 }, fxp.2)

/-- The real-time mix-bus loop over the non-master track snapshots: muted
tracks are skipped, and when any track is soloed the non-soloed tracks are
skipped; the rest accumulate into the stereo mix bus. -/
def mixTracksRealtime (R : RealOps) (st : FrameSt) (has_solo : Bool)
    (snaps : List TrackSnapshot) (acc : ℚ × ℚ) (playhead_frame : ℕ) :
    FrameSt × (ℚ × ℚ) :=
  match snaps with
  | [] => (st, acc)
  | snap :: rest =>
      if snap.muted then
        mixTracksRealtime R st has_solo rest acc playhead_frame
      else if has_solo && !snap.soloed then
        mixTracksRealtime R st has_solo rest acc playhead_frame
      else
        let p := processTrackFrameRealtime R st snap playhead_frame
        mixTracksRealtime R p.1 has_solo rest (acc.1 + p.2.1, acc.2 + p.2.2) playhead_frame

/-- The offline mix-bus loop (text identical to the real-time one). -/
def mixTracksOffline (R : RealOps) (st : FrameSt) (has_solo : Bool)
    (snaps : List TrackSnapshot) (acc : ℚ × ℚ) (playhead_frame : ℕ) :
    FrameSt × (ℚ × ℚ) :=
  match snaps with
  | [] => (st, acc)
  | snap :: rest =>
      if snap.muted then
        mixTracksOffline R st has_solo rest acc playhead_frame
      else if has_solo && !snap.soloed then
        mixTracksOffline R st has_solo rest acc playhead_frame
      else
        let p := processTrackFrameOffline R st snap playhead_frame
        mixTracksOffline R p.1 has_solo rest (acc.1 + p.2.1, acc.2 + p.2.2) playhead_frame

/-- The master-track stage of the real-time callback: master volume gain,
then per-channel pan gains (`master_left *= pan_left`,
`master_right *= pan_right`), then the master FX chain. -/
def masterStageRealtime (st : FrameSt) (master : Option TrackSnapshot)
    (mix : ℚ × ℚ) : FrameSt × (ℚ × ℚ) :=
  match master with
  | none => (st, mix)
  | some ms =>
      let master_left := mix.1 * ms.volume_gain
      let master_right := mix.2 * ms.volume_gain
      let master_left := master_left * ms.pan_left
      let master_right := master_right * ms.pan_right
      let (effects, out) := processFxChain st.effects ms.fx_chain master_left master_right
      ({ st with effects := effects }, out)

/-- The master-track stage of `render_offline`: master volume gain, then
the pan step `temp_l = l·pan_left + r·pan_left`,
`temp_r = l·pan_right + r·pan_right` (both input channels summed into each
output channel — unlike the real-time stage), then the master FX chain. -/
def masterStageOffline (st : FrameSt) (master : Option TrackSnapshot)
    (mix : ℚ × ℚ) : FrameSt × (ℚ × ℚ) :=
  match master with
  | none => (st, mix)
  | some ms =>
      let master_left := mix.1 * ms.volume_gain
      let master_right := mix.2 * ms.volume_gain
      let temp_l := master_left * ms.pan_left + master_right * ms.pan_left
      let temp_r := master_left * ms.pan_right + master_right * ms.pan_right
      let (effects, out) := processFxChain st.effects ms.fx_chain temp_l temp_r
      ({ st with effects := effects }, out)

/-- The master limiter applied through its shared handle. -/
def applyLimiter (st : FrameSt) (lr : ℚ × ℚ) : FrameSt × (ℚ × ℚ) :=
  let (lim, out) := st.limiter.process_frame lr.1 lr.2
  ({ st with limiter := lim }, out)

/-- One frame of the Playing branch of the real-time callback: mix bus over
the snapshots, recorder processing (metronome + capture) with the live
input, master stage, limiter, and the metronome summed after the limiter.
Returns the engine state, recorder, and the stereo output frame. -/
def realtimeFrame (R : RealOps) (st : FrameSt) (rec : Recorder)
    (snaps : List TrackSnapshot) (has_solo : Bool) (master : Option TrackSnapshot)
    (playhead_frame : ℕ) (input_left input_right : ℚ) :
    (FrameSt × Recorder) × (ℚ × ℚ) :=
  let (st, mix) := mixTracksRealtime R st has_solo snaps (0, 0) playhead_frame
  let (rec, met) := rec.process_frame R input_left input_right true
  let (st, m) := masterStageRealtime st master mix
  let (st, limited) := applyLimiter st m
  ((st, rec), (limited.1 + met.1, limited.2 + met.2))

/-- One frame of `render_offline`: mix bus, master stage, limiter.  No
recorder processing and no metronome. -/
def offlineFrame (R : RealOps) (st : FrameSt)
    (snaps : List TrackSnapshot) (has_solo : Bool) (master : Option TrackSnapshot)
    (frame_idx : ℕ) : FrameSt × (ℚ × ℚ) :=
  let (st, mix) := mixTracksOffline R st has_solo snaps (0, 0) frame_idx
  let (st, m) := masterStageOffline st master mix
  applyLimiter st m

/-- The frame loop of the real-time callback over one hardware buffer of
`frames` frames starting at `current_playhead`: writes interleaved stereo
output.  `inputs` supplies the live input frame read inside the loop. -/
def realtimeBuffer (R : RealOps) (st : FrameSt) (rec : Recorder)
    (snaps : List TrackSnapshot) (has_solo : Bool) (master : Option TrackSnapshot)
    (current_playhead : ℕ) (frames : ℕ) (inputs : ℕ → ℚ × ℚ) :
    (FrameSt × Recorder) × List ℚ :=
  (List.range frames).foldl
    (fun acc frame_idx =>
      let ((st, rec), out) := realtimeFrame R acc.1.1 acc.1.2 snaps has_solo master
        (current_playhead + frame_idx) (inputs frame_idx).1 (inputs frame_idx).2
      ((st, rec), acc.2 ++ [out.1, out.2]))
    ((st, rec), [])

/-- `AudioGraph::render_offline` without the snapshot construction: renders
`total_frames = (duration_seconds * sample_rate) as usize` frames from the
given snapshots, producing the interleaved stereo output vector. -/
def renderOffline (R : RealOps) (st : FrameSt)
    (snaps : List TrackSnapshot) (has_solo : Bool) (master : Option TrackSnapshot)
    (duration_seconds : ℚ) : FrameSt × List ℚ :=
  let total_frames := ratToU64 (duration_seconds * (TARGET_SAMPLE_RATE : ℚ))
  (List.range total_frames).foldl
    (fun acc frame_idx =>
      let (st, out) := offlineFrame R acc.1 snaps has_solo master frame_idx
      (st, acc.2 ++ [out.1, out.2]))
    (st, [])

/-! ## Transport (`audio_graph.rs`) and the track-volume API (`api.rs`) -/

/-- `TransportState` from `audio_graph.rs`. -/
inductive TransportState where
  | Stopped
  | Playing
  | Paused
deriving DecidableEq, Repr

/-- `TransportState::from_u8` (unknown values decode to Stopped). -/
def TransportState.from_u8 (value : ℕ) : TransportState :=
  match value with
  | 1 => .Playing
  | 2 => .Paused
  | _ => .Stopped

/-- The observable state of the `cpal` output stream held by the graph:
whether it is running, plus how many times `play()` / `pause()` were
invoked on it (to state "the stream is not restarted"). -/
structure StreamSt where
  running : Bool
  play_calls : ℕ
  pause_calls : ℕ
deriving DecidableEq

/-- The transport-level state of `AudioGraph`: the fields read or written
by `play` / `pause` / `stop` / `seek` / `get_playhead_position`.  The clip
lists and the track/effect managers are not touched by these operations
and are carried separately by the frame-level model above. -/
structure AudioGraph where
  playhead_samples : ℕ
  state : TransportState
  stream : Option StreamSt
  recorder : Recorder
  track_synth_manager : TrackSynthManager

/-- `AudioGraph::get_playhead_position`: tempo-scaled seconds,
`samples * (tempo / 120) / sample_rate`. -/
def AudioGraph.get_playhead_position (g : AudioGraph) : ℚ :=
  let samples := g.playhead_samples
  let tempo := g.recorder.get_tempo
  let tempoScale := tempo / 120
  (samples : ℚ) * tempoScale / (TARGET_SAMPLE_RATE : ℚ)

/-- `AudioGraph::seek`: reverse tempo scaling,
`(position_seconds / (tempo / 120) * sample_rate) as u64`. -/
def AudioGraph.seek (g : AudioGraph) (position_seconds : ℚ) : AudioGraph :=
  let tempo := g.recorder.get_tempo
  let tempoScale := tempo / 120
  let samples := ratToU64 (position_seconds / tempoScale * (TARGET_SAMPLE_RATE : ℚ))
  { g with playhead_samples := samples }

/-- `AudioGraph::play`: early-returns if already Playing; otherwise sets
Playing and resumes the pre-created stream (error if absent).  The mutated
graph is returned alongside the result, as in the source the state store
happens before the stream check. -/
def AudioGraph.play (g : AudioGraph) : AudioGraph × Except String Unit :=
  if g.state = TransportState.Playing then
    (g, .ok ())
  else
    let g := { g with state := TransportState.Playing }
    match g.stream with
    | some s =>
        ({ g with stream := some { s with running := true, play_calls := s.play_calls + 1 } },
         .ok ())
    | none => (g, .error "Audio stream not initialized")

/-- `AudioGraph::pause`: sets Paused and pauses the stream; the playhead is
untouched. -/
def AudioGraph.pause (g : AudioGraph) : AudioGraph × Except String Unit :=
  let g := { g with state := TransportState.Paused }
  let g :=
    match g.stream with
    | some s =>
        { g with stream := some { s with running := false, pause_calls := s.pause_calls + 1 } }
    | none => g
  (g, .ok ())

/-- `AudioGraph::stop`: set Stopped, pause the stream, silence every track
synthesizer, reset the playhead to 0, reset the recorder's metronome
counter. -/
def AudioGraph.stop (g : AudioGraph) : AudioGraph × Except String Unit :=
  let g := { g with state := TransportState.Stopped }
  let g :=
    match g.stream with
    | some s =>
        { g with stream := some { s with running := false, pause_calls := s.pause_calls + 1 } }
    | none => g
  let g := { g with track_synth_manager := g.track_synth_manager.all_notes_off_all_tracks }
  let g := { g with playhead_samples := 0 }
  let g := { g with recorder := g.recorder.reset_metronome }
  (g, .ok ())

/-- The per-track mixer fields mutated by the `api.rs` setters (the full
`Track` struct lives in the `track` module, not under `src/`; these fields
and their meaning are fixed by the spec §3). -/
structure Track where
  volume_db : ℚ
  pan : ℚ
  mute : Bool
  solo : Bool
  armed : Bool
deriving DecidableEq

/-- Modelled from the spec: the track registry (`track.rs`, not under
`src/`) "provides id-keyed lookup" (§4.1); modelled as an association
list. -/
def TrackManager := List (ℕ × Track)

/-- `TrackManager::get_track`. -/
def TrackManager.get_track (tm : TrackManager) (id : ℕ) : Option Track :=
  (List.find? (fun p => p.1 = id) tm).map (·.2)

/-- In-place update of the track stored under `id` (the effect of mutating
through the returned shared handle). -/
def TrackManager.set_track (tm : TrackManager) (id : ℕ) (t : Track) : TrackManager :=
  List.map (fun p => if p.1 = id then (id, t) else p) tm

/-- `set_track_volume` from `api.rs`: looks the track up and stores
`volume_db.clamp(-96.0, 6.0)`; unknown ids fail.  The success message
string is not modelled. -/
def set_track_volume (tm : TrackManager) (track_id : ℕ) (volume_db : ℚ) :
    Except String TrackManager :=
  match tm.get_track track_id with
  | some track =>
      .ok (tm.set_track track_id { track with volume_db := clampQ volume_db (-96) 6 })
  | none => .error "Track not found"

/-- `set_track_pan` from `api.rs`: stores `pan.clamp(-1.0, 1.0)`. -/
def set_track_pan (tm : TrackManager) (track_id : ℕ) (pan : ℚ) :
    Except String TrackManager :=
  match tm.get_track track_id with
  | some track =>
      .ok (tm.set_track track_id { track with pan := clampQ pan (-1) 1 })
  | none => .error "Track not found"

/-! ## Derived step functions and concrete instances -/

/-- The effect of one `process_sample` call on a single voice slot: active
voices are processed, inactive voices are left untouched. -/
def voiceStep (R : RealOps) (v : TrackVoice) : TrackVoice :=
  if v.is_active then (v.process R).1 else v

/-- The synthesizer state after one `process_sample` call. -/
def synthStep (R : RealOps) (s : TrackSynthesizer) : TrackSynthesizer :=
  (s.process_sample R).1

/-- A concrete (arbitrary) instantiation of the transcendental-function
oracle, used to evaluate the model at concrete inputs. -/
def trivialOps : RealOps :=
  { sinq := fun _ => 0
    cosq := fun _ => 0
    expq := fun _ => 0
    pow2q := fun _ => 1
    piq := 0
    parsef32 := fun _ => none }

/-- A pass-through limiter instance (an effect whose step is the
identity), used for concrete evaluation. -/
def identityLimiter : Effect :=
  { mem := [], step := fun lr m => (lr, m) }

/-- An empty effect registry. -/
def emptyEffects : EffectManager := []

/-- Concrete engine frame state: no synths, no effects, pass-through
limiter. -/
def demoFrameSt : FrameSt :=
  { synths := TrackSynthManager.new 48000
    effects := emptyEffects
    limiter := identityLimiter }

/-- A concrete one-frame stereo clip holding the sample 1 on both
channels. -/
def demoClip : AudioClip :=
  { samples := [1, 1]
    channels := 2
    sample_rate := TARGET_SAMPLE_RATE
    duration_seconds := 1 / 48000 }

/-- A concrete non-master track snapshot playing `demoClip` from time 0 at
unit gains. -/
def demoTrackSnap : TrackSnapshot :=
  { id := 1
    audio_clips := [{ id := 10, clip := demoClip, start_time := 0, offset := 0, duration := none }]
    midi_clips := []
    volume_gain := 1
    pan_left := 1
    pan_right := 1
    muted := false
    soloed := false
    fx_chain := [] }

/-- A concrete master snapshot with unit volume gain and unit pan gains and
an empty FX chain. -/
def demoMasterSnap : TrackSnapshot :=
  { id := 0
    audio_clips := []
    midi_clips := []
    volume_gain := 1
    pan_left := 1
    pan_right := 1
    muted := false
    soloed := false
    fx_chain := [] }

/-- A recorder with the metronome disabled (so the metronome output is 0
in every state). -/
def demoRecorder : Recorder :=
  { Recorder.new with metronome_enabled := false }

/-- A recorder mid count-in, two bars (192000 samples at 120 BPM in 4/4)
already elapsed. -/
def demoCountingIn : Recorder :=
  { Recorder.new with state := RecordingState.CountingIn, sample_counter := 192000 }

/-- A recorder in the Recording state holding one captured frame. -/
def demoRecording : Recorder :=
  { Recorder.new with state := RecordingState.Recording
                      recorded_samples := [1 / 2, 1 / 2] }

/-- A concrete audio graph in the Playing state. -/
def demoGraphPlaying : AudioGraph :=
  { playhead_samples := 123
    state := TransportState.Playing
    stream := some { running := true, play_calls := 1, pause_calls := 0 }
    recorder := Recorder.new
    track_synth_manager := TrackSynthManager.new 48000 }

/-- A concrete default track. -/
def demoTrack : Track :=
  { volume_db := 0, pan := 0, mute := false, solo := false, armed := false }

/-- A registry holding `demoTrack` under id 1. -/
def demoTrackManager : TrackManager := [(1, demoTrack)]

/-- A voice frozen just after `note_off`: active, envelope in Release at
level 1/2, time 0, default parameters. -/
def demoReleaseVoice : TrackVoice :=
  { TrackVoice.new trivialOps 48000 with
      is_active := true
      envelope :=
        { params := EnvelopeParams.default
          state := EnvelopeState.Release
          level := 1 / 2
          time := 0 } }

/-- A synthesizer whose only voice is `demoReleaseVoice`. -/
def demoReleaseSynth : TrackSynthesizer :=
  { TrackSynthesizer.new trivialOps 48000 with voices := [demoReleaseVoice] }

/-! ## Helper lemmas -/

theorem clampQ_mem (x lo hi : ℚ) (h : lo ≤ hi) :
    lo ≤ clampQ x lo hi ∧ clampQ x lo hi ≤ hi := by
  unfold clampQ
  split_ifs with h1 h2 <;> constructor <;> linarith

theorem find_map_set {β : Type _} (l : List (ℕ × β)) (id : ℕ) (t : β)
    (h : (l.find? fun p => p.1 = id).isSome = true) :
    ((l.map fun p => if p.1 = id then (id, t) else p).find? fun p => p.1 = id)
      = some (id, t) := by
  induction l with
  | nil => simp [List.find?] at h
  | cons hd tl ih =>
      by_cases hk : hd.1 = id
      · rw [List.map_cons, if_pos hk, List.find?_cons_of_pos _ (by simp)]
      · rw [List.map_cons, if_neg hk, List.find?_cons_of_neg _ (by simp [hk])]
        rw [List.find?_cons_of_neg _ (by simp [hk])] at h
        exact ih h

theorem get_track_set_track (tm : TrackManager) (id : ℕ) (t tr : Track)
    (h : tm.get_track id = some tr) :
    (tm.set_track id t).get_track id = some t := by
  have hs : ((List.find? (fun p => p.1 = id) tm).isSome) = true := by
    unfold TrackManager.get_track at h
    cases hf : List.find? (fun p => p.1 = id) tm <;> simp [hf] at h ⊢
  unfold TrackManager.get_track TrackManager.set_track
  rw [find_map_set tm id t hs]
  rfl

theorem mem_set_self {α : Type _} :
    ∀ (l : List α) (i : ℕ) (a : α), i < l.length → a ∈ l.set i a
  | [], i, a, h => absurd h (by simp)
  | x :: xs, 0, a, _ => by simp
  | x :: xs, i + 1, a, h => by
      have := mem_set_self xs i a (by simpa using h)
      simp [List.set, this]

/-! ## Claim theorems -/

/-- C9: for every input value and existing track id, `set_track_volume`
stores the dB value clamped into [-96, 6]; in particular input 100 stores 6
and input -200 stores -96. -/
theorem set_track_volume_clamps (tm : TrackManager) (id : ℕ) (v : ℚ) (tr : Track)
    (h : tm.get_track id = some tr) :
    ∃ tm', set_track_volume tm id v = .ok tm'
      ∧ tm'.get_track id = some { tr with volume_db := clampQ v (-96) 6 }
      ∧ -96 ≤ clampQ v (-96) 6 ∧ clampQ v (-96) 6 ≤ 6
      ∧ clampQ 100 (-96) 6 = 6 ∧ clampQ (-200) (-96) 6 = -96 := by
  refine ⟨tm.set_track id { tr with volume_db := clampQ v (-96) 6 }, ?_, ?_, ?_, ?_, ?_, ?_⟩
  · unfold set_track_volume
    rw [h]
  · exact get_track_set_track tm id _ tr h
  · exact (clampQ_mem v (-96) 6 (by norm_num)).1
  · exact (clampQ_mem v (-96) 6 (by norm_num)).2
  · norm_num [clampQ]
  · norm_num [clampQ]

/-- C9 witness: a concrete registry with one track; input 100 stores 6. -/
theorem set_track_volume_clamps_witness :
    ∃ tm', set_track_volume demoTrackManager 1 100 = .ok tm'
      ∧ tm'.get_track 1 = some { demoTrack with volume_db := clampQ 100 (-96) 6 }
      ∧ -96 ≤ clampQ 100 (-96) 6 ∧ clampQ 100 (-96) 6 ≤ 6
      ∧ clampQ 100 (-96) 6 = 6 ∧ clampQ (-200) (-96) 6 = -96 :=
  set_track_volume_clamps demoTrackManager 1 100 demoTrack (by rfl)

/-- C10: every `TrackSynthManager` operation on a track id with no synth is
a total, silent no-op: `process_sample` returns 0 and no operation changes
the manager. -/
theorem synth_manager_missing_id_noop (R : RealOps) (m : TrackSynthManager)
    (id note vel : ℕ) (key value : String)
    (h : m.find_synth id = none) :
    m.process_sample R id = (m, 0)
    ∧ m.note_on R id note vel = m
    ∧ m.note_off id note vel = m
    ∧ m.set_parameter R id key value = m := by
  refine ⟨?_, ?_, ?_, ?_⟩ <;>
    simp [TrackSynthManager.process_sample, TrackSynthManager.note_on,
      TrackSynthManager.note_off, TrackSynthManager.set_parameter, h]

/-- C10 witness: the empty manager at id 5. -/
theorem synth_manager_missing_id_noop_witness :
    (TrackSynthManager.new 48000).process_sample trivialOps 5 = (TrackSynthManager.new 48000, 0)
    ∧ (TrackSynthManager.new 48000).note_on trivialOps 5 60 100 = TrackSynthManager.new 48000
    ∧ (TrackSynthManager.new 48000).note_off 5 60 0 = TrackSynthManager.new 48000
    ∧ (TrackSynthManager.new 48000).set_parameter trivialOps 5 "osc1_level" "0.5"
        = TrackSynthManager.new 48000 :=
  synth_manager_missing_id_noop trivialOps (TrackSynthManager.new 48000) 5 60 0
    "osc1_level" "0.5" (by rfl)

/-- C6: calling `play()` when the transport is already Playing returns
success and changes nothing — the state stays Playing and the stream is
not restarted. -/
theorem play_idempotent_when_playing (g : AudioGraph)
    (h : g.state = TransportState.Playing) :
    g.play = (g, Except.ok ()) := by
  simp [AudioGraph.play, h]

/-- C6 witness: a concrete Playing graph. -/
theorem play_idempotent_when_playing_witness :
    demoGraphPlaying.play = (demoGraphPlaying, Except.ok ()) :=
  play_idempotent_when_playing demoGraphPlaying (by rfl)

/-- C3: after `stop()`, for every prior graph state: the transport is
Stopped, the playhead is exactly 0, every track synthesizer has no active
voice, and the recorder's metronome sample counter is 0. -/
theorem stop_resets_everything (g : AudioGraph) :
    (g.stop).1.state = TransportState.Stopped
    ∧ (g.stop).1.playhead_samples = 0
    ∧ (g.stop).1.recorder.sample_counter = 0
    ∧ ∀ p ∈ (g.stop).1.track_synth_manager.synths, p.2.active_voice_count = 0 := by
  unfold AudioGraph.stop
  cases hs : g.stream with
  | none =>
      refine ⟨rfl, rfl, rfl, ?_⟩
      intro p hp
      simp only [TrackSynthManager.all_notes_off_all_tracks, List.mem_map] at hp
      obtain ⟨q, _, hq⟩ := hp
      subst hq
      simp [TrackSynthesizer.active_voice_count, List.countP_map, Function.comp]
  | some s =>
      refine ⟨rfl, rfl, rfl, ?_⟩
      intro p hp
      simp only [TrackSynthManager.all_notes_off_all_tracks, List.mem_map] at hp
      obtain ⟨q, _, hq⟩ := hp
      subst hq
      simp [TrackSynthesizer.active_voice_count, List.countP_map, Function.comp]

/-- C2 counterexample: calling `stop_recording()` on an Idle recorder does
not fail with an error — it returns success carrying no clip. -/
theorem stop_recording_idle_returns_ok :
    Recorder.new.state = RecordingState.Idle
    ∧ Recorder.new.stop_recording = Except.ok (Recorder.new, none)
    ∧ ∀ e : String, Recorder.new.stop_recording ≠ Except.error e := by
  refine ⟨rfl, rfl, ?_⟩
  intro e h
  rw [show Recorder.new.stop_recording = Except.ok (Recorder.new, none) from rfl] at h
  exact Except.noConfusion h

/-- C2 (amended): `stop_recording()` in the Idle state returns success with
no clip and leaves the recorder unchanged; in any other state it
transitions the recorder to Idle and returns a 2-channel audio clip whose
duration is computed from the captured sample count if the capture buffer
is non-empty, and no clip if the capture buffer is empty. -/
theorem stop_recording_behaviour (r : Recorder) :
    (r.state = RecordingState.Idle → r.stop_recording = Except.ok (r, none))
    ∧ (r.state ≠ RecordingState.Idle →
        r.stop_recording = Except.ok ({ r with state := RecordingState.Idle },
          if r.recorded_samples.isEmpty then none
          else some
            { samples := r.recorded_samples
              channels := 2
              sample_rate := TARGET_SAMPLE_RATE
              duration_seconds :=
                ((r.recorded_samples.length / 2 : ℕ) : ℚ) / (TARGET_SAMPLE_RATE : ℚ) })) := by
  constructor
  · intro h
    simp [Recorder.stop_recording, h]
  · intro h
    simp only [Recorder.stop_recording, if_neg h]
    split_ifs with he <;> simp [he]

/-- C2 witness: stopping a Recording-state recorder holding one captured
frame yields the Idle recorder and a 2-channel clip of duration 1/48000 s. -/
theorem stop_recording_behaviour_witness :
    demoRecording.state ≠ RecordingState.Idle
    ∧ demoRecording.stop_recording = Except.ok ({ demoRecording with state := RecordingState.Idle },
        if demoRecording.recorded_samples.isEmpty then none
        else some
          { samples := demoRecording.recorded_samples
            channels := 2
            sample_rate := TARGET_SAMPLE_RATE
            duration_seconds :=
              ((demoRecording.recorded_samples.length / 2 : ℕ) : ℚ) / (TARGET_SAMPLE_RATE : ℚ) }) :=
  ⟨by decide, (stop_recording_behaviour demoRecording).2 (by decide)⟩

/-- C7: at 120 BPM, `seek(t)` followed by `get_playhead_position()` returns
`t` up to the one-sample-period truncation error, which is below the
0.001 s tolerance. -/
theorem seek_roundtrip_tolerance (g : AudioGraph) (t : ℚ)
    (htempo : g.recorder.tempo = 120) (ht : 0 ≤ t) :
    |(g.seek t).get_playhead_position - t| < 1 / 1000 := by
  have hx : (0 : ℚ) ≤ t * 48000 := by positivity
  have h0 : (0 : ℤ) ≤ ⌊t * 48000⌋ := Int.floor_nonneg.mpr hx
  have hle : ((⌊t * 48000⌋ : ℤ) : ℚ) ≤ t * 48000 := Int.floor_le _
  have hlt : t * 48000 < ((⌊t * 48000⌋ : ℤ) : ℚ) + 1 := Int.lt_floor_add_one _
  have hcast : (((⌊t * 48000⌋).toNat : ℕ) : ℚ) = ((⌊t * 48000⌋ : ℤ) : ℚ) := by
    exact_mod_cast congrArg (fun z : ℤ => (z : ℚ)) (Int.toNat_of_nonneg h0)
  simp only [AudioGraph.get_playhead_position, AudioGraph.seek, Recorder.get_tempo,
    htempo, ratToU64, TARGET_SAMPLE_RATE]
  norm_num
  rw [hcast]
  rw [abs_lt]
  constructor <;> nlinarith

/-- C7 witness: seeking to 1/3 s at 120 BPM. -/
theorem seek_roundtrip_tolerance_witness :
    demoGraphPlaying.recorder.tempo = 120 ∧ (0 : ℚ) ≤ 1 / 3
    ∧ |(demoGraphPlaying.seek (1 / 3)).get_playhead_position - 1 / 3| < 1 / 1000 :=
  ⟨by norm_num [demoGraphPlaying, Recorder.new], by norm_num,
    seek_roundtrip_tolerance demoGraphPlaying (1 / 3)
      (by norm_num [demoGraphPlaying, Recorder.new]) (by norm_num)⟩

theorem ratToU64_natCast (n : ℕ) : ratToU64 (n : ℚ) = n := by
  simp [ratToU64]

/-- How `process_frame` acts on the recorder state from CountingIn: the
recorder either transitions to Recording with counter 0 (once the elapsed
count reaches the count-in length) or keeps counting. -/
theorem process_frame_counting_in (R : RealOps) (il ir : ℚ) (playing : Bool)
    (rs : List ℚ) (sc cb : ℕ) (tp : ℚ) (me : Bool) (ts : ℕ) :
    (Recorder.process_frame R
        ⟨RecordingState.CountingIn, rs, sc, cb, tp, me, ts⟩ il ir playing).1
      = if ratToU64 (60 / tp * (TARGET_SAMPLE_RATE : ℚ)) * ts * cb ≤ sc
        then ⟨RecordingState.Recording, rs, 0, cb, tp, me, ts⟩
        else ⟨RecordingState.CountingIn, rs, sc + 1, cb, tp, me, ts⟩ := by
  by_cases hc : ratToU64 (60 / tp * (TARGET_SAMPLE_RATE : ℚ)) * ts * cb ≤ sc
  · rw [if_pos hc]
    simp [Recorder.process_frame, Recorder.samples_per_bar, Recorder.samples_per_beat, hc]
  · rw [if_neg hc]
    simp [Recorder.process_frame, Recorder.samples_per_bar, Recorder.samples_per_beat, hc]

/-- C5: with a positive count-in, one `process_frame` call from the
CountingIn state transitions to Recording with the counter reset to 0
exactly when the elapsed sample count has reached
`count_in_bars * samples_per_bar`, and never appends to the capture
buffer; input frames are appended exactly in the Recording state. -/
theorem count_in_transition (R : RealOps) (r : Recorder) (il ir : ℚ)
    (playing : Bool) (hbars : 0 < r.count_in_bars) :
    (r.state = RecordingState.CountingIn →
      (((r.process_frame R il ir playing).1.state = RecordingState.Recording
          ∧ (r.process_frame R il ir playing).1.sample_counter = 0)
        ↔ r.count_in_bars * r.samples_per_bar ≤ r.sample_counter)
      ∧ (r.process_frame R il ir playing).1.recorded_samples = r.recorded_samples)
    ∧ (r.state = RecordingState.Recording →
        (r.process_frame R il ir playing).1.recorded_samples
          = r.recorded_samples ++ [il, ir])
    ∧ (r.state = RecordingState.Idle →
        (r.process_frame R il ir playing).1.recorded_samples
          = r.recorded_samples) := by
  obtain ⟨st, rs, sc, cb, tp, me, ts⟩ := r
  refine ⟨?_, ?_, ?_⟩
  · intro h
    subst h
    rw [process_frame_counting_in]
    have hbar : (⟨RecordingState.CountingIn, rs, sc, cb, tp, me, ts⟩ : Recorder).samples_per_bar
        = ratToU64 (60 / tp * (TARGET_SAMPLE_RATE : ℚ)) * ts := rfl
    by_cases hc : ratToU64 (60 / tp * (TARGET_SAMPLE_RATE : ℚ)) * ts * cb ≤ sc
    · rw [if_pos hc]
      refine ⟨?_, rfl⟩
      simp only [hbar]
      constructor
      · intro _
        calc cb * (ratToU64 (60 / tp * (TARGET_SAMPLE_RATE : ℚ)) * ts)
            = ratToU64 (60 / tp * (TARGET_SAMPLE_RATE : ℚ)) * ts * cb := Nat.mul_comm _ _
          _ ≤ sc := hc
      · intro _
        exact ⟨by trivial, by trivial⟩
    · rw [if_neg hc]
      refine ⟨?_, rfl⟩
      simp only [hbar]
      constructor
      · intro hcontra
        exact absurd hcontra.1 (by simp)
      · intro hle
        exact absurd (le_of_eq_of_le (Nat.mul_comm _ _) hle) hc
  · intro h
    subst h
    simp [Recorder.process_frame]
  · intro h
    subst h
    by_cases hp : playing = true <;> simp [Recorder.process_frame, hp]

/-- C5 witness: a 120 BPM, 4/4, two-bar count-in with 192000 samples
elapsed transitions to Recording with the counter reset, appending
nothing. -/
theorem count_in_transition_witness :
    ((demoCountingIn.process_frame trivialOps 0 0 true).1.state = RecordingState.Recording
      ∧ (demoCountingIn.process_frame trivialOps 0 0 true).1.sample_counter = 0)
    ∧ (demoCountingIn.process_frame trivialOps 0 0 true).1.recorded_samples
        = demoCountingIn.recorded_samples := by
  have h := count_in_transition trivialOps demoCountingIn 0 0 true (by decide)
  have h1 := h.1 (by rfl)
  have h24 : ratToU64 (60 / (120 : ℚ) * ((TARGET_SAMPLE_RATE : ℕ) : ℚ)) = 24000 := by
    have he : (60 / (120 : ℚ) * ((TARGET_SAMPLE_RATE : ℕ) : ℚ)) = ((24000 : ℕ) : ℚ) := by
      norm_num [TARGET_SAMPLE_RATE]
    rw [he, ratToU64_natCast]
  have hle : demoCountingIn.count_in_bars * demoCountingIn.samples_per_bar
      ≤ demoCountingIn.sample_counter := by
    show 2 * (⟨RecordingState.CountingIn, [], 192000, 2, 120, true, 4⟩ : Recorder).samples_per_bar
        ≤ 192000
    rw [show (⟨RecordingState.CountingIn, [], 192000, 2, 120, true, 4⟩ : Recorder).samples_per_bar
        = ratToU64 (60 / (120 : ℚ) * ((TARGET_SAMPLE_RATE : ℕ) : ℚ)) * 4 from rfl, h24]
  exact ⟨h1.1.mpr hle, h1.2⟩

/-- The two per-track frame-processing paths are the same function (the
source duplicates the code verbatim between the callback and
`render_offline`). -/
theorem processTrackFrame_paths_agree :
    processTrackFrameRealtime = processTrackFrameOffline := rfl

/-- C4: in the per-frame mix loop (with `has_solo` the loop's snapshot
flag, true when some track is soloed), a muted track contributes nothing
to the mix bus and changes nothing; when `has_solo` is set, a non-soloed
track contributes nothing even if unmuted; an unmuted track that is soloed
or plays with no solo active contributes its processed output.  The first
conjunct transfers all of this to the offline loop, which is the same
function. -/
theorem mute_solo_policy (R : RealOps) (st : FrameSt) (hs : Bool)
    (snap : TrackSnapshot) (rest : List TrackSnapshot) (acc : ℚ × ℚ) (frame : ℕ) :
    (∀ (st' : FrameSt) (l : List TrackSnapshot) (acc' : ℚ × ℚ),
        mixTracksRealtime R st' hs l acc' frame = mixTracksOffline R st' hs l acc' frame)
    ∧ (snap.muted = true →
        mixTracksRealtime R st hs (snap :: rest) acc frame
          = mixTracksRealtime R st hs rest acc frame)
    ∧ (hs = true → snap.soloed = false →
        mixTracksRealtime R st hs (snap :: rest) acc frame
          = mixTracksRealtime R st hs rest acc frame)
    ∧ (snap.muted = false → (snap.soloed = true ∨ hs = false) →
        mixTracksRealtime R st hs (snap :: rest) acc frame
          = mixTracksRealtime R (processTrackFrameRealtime R st snap frame).1 hs rest
              (acc.1 + (processTrackFrameRealtime R st snap frame).2.1,
               acc.2 + (processTrackFrameRealtime R st snap frame).2.2) frame) := by
  refine ⟨?_, ?_, ?_, ?_⟩
  · intro st' l acc'
    induction l generalizing st' acc' with
    | nil => rfl
    | cons a as ih =>
        by_cases hm : a.muted = true
        · simp [mixTracksRealtime, mixTracksOffline, hm, ih]
        · by_cases hsolo : (hs && !a.soloed) = true
          · simp [mixTracksRealtime, mixTracksOffline, hm, hsolo, ih]
          · simp [mixTracksRealtime, mixTracksOffline, hm, hsolo, ih,
              processTrackFrame_paths_agree]
  · intro hm
    simp [mixTracksRealtime, hm]
  · intro h1 h2
    by_cases hm : snap.muted = true
    · simp [mixTracksRealtime, hm]
    · simp [mixTracksRealtime, hm, h1, h2]
  · intro hm hinc
    have hcond : (hs && !snap.soloed) = false := by
      rcases hinc with h | h <;> simp [h]
    simp [mixTracksRealtime, hm, hcond]

/-- C4 witness: concrete skip and include cases at one frame. -/
theorem mute_solo_policy_witness :
    (mixTracksRealtime trivialOps demoFrameSt false
        ({ demoTrackSnap with muted := true } :: []) (0, 0) 0
      = mixTracksRealtime trivialOps demoFrameSt false [] (0, 0) 0)
    ∧ (mixTracksRealtime trivialOps demoFrameSt true
        ({ demoTrackSnap with soloed := false } :: []) (0, 0) 0
      = mixTracksRealtime trivialOps demoFrameSt true [] (0, 0) 0)
    ∧ (mixTracksRealtime trivialOps demoFrameSt false (demoTrackSnap :: []) (0, 0) 0
      = mixTracksRealtime trivialOps
          (processTrackFrameRealtime trivialOps demoFrameSt demoTrackSnap 0).1 false []
          ((0 : ℚ) + (processTrackFrameRealtime trivialOps demoFrameSt demoTrackSnap 0).2.1,
           (0 : ℚ) + (processTrackFrameRealtime trivialOps demoFrameSt demoTrackSnap 0).2.2) 0) :=
  ⟨(mute_solo_policy trivialOps demoFrameSt false { demoTrackSnap with muted := true }
      [] (0, 0) 0).2.1 rfl,
   (mute_solo_policy trivialOps demoFrameSt true { demoTrackSnap with soloed := false }
      [] (0, 0) 0).2.2.1 rfl rfl,
   (mute_solo_policy trivialOps demoFrameSt false demoTrackSnap
      [] (0, 0) 0).2.2.2 rfl (Or.inr rfl)⟩

/-- C1: the offline render does not reproduce the real-time mixing math.
With identical graph state (one unit-gain track playing a unit sample,
a master snapshot with unit volume and pan gains, empty FX chains, a
pass-through limiter, metronome disabled), the real-time callback writes
the frame (1, 1) while `render_offline` writes (2, 2): the offline master
pan step sums both mix-bus channels into each output channel
(`temp_l = l·pan_left + r·pan_left`) where the real-time path scales each
channel separately (`l·pan_left`, `r·pan_right`). -/
theorem offline_master_pan_diverges :
    (realtimeFrame trivialOps demoFrameSt demoRecorder [demoTrackSnap] false
        (some demoMasterSnap) 0 0 0).2 = (1, 1)
    ∧ (offlineFrame trivialOps demoFrameSt [demoTrackSnap] false
        (some demoMasterSnap) 0).2 = (2, 2)
    ∧ (realtimeBuffer trivialOps demoFrameSt demoRecorder [demoTrackSnap] false
        (some demoMasterSnap) 0 1 (fun _ => (0, 0))).2 = [1, 1]
    ∧ (renderOffline trivialOps demoFrameSt [demoTrackSnap] false
        (some demoMasterSnap) (1 / 48000)).2 = [2, 2] := by
  refine ⟨?_, ?_, ?_, ?_⟩
  · norm_num [realtimeFrame, mixTracksRealtime, processTrackFrameRealtime, mixAudioClips,
      dispatchMidiClips, TrackSynthManager.process_sample, TrackSynthManager.find_synth,
      demoFrameSt, TrackSynthManager.new, demoTrackSnap, demoClip, demoMasterSnap,
      AudioClip.get_sample, ratToU64, processFxChain, emptyEffects,
      masterStageRealtime, applyLimiter, identityLimiter, Effect.process_frame,
      Recorder.process_frame, demoRecorder, Recorder.new]
  · norm_num [offlineFrame, mixTracksOffline, processTrackFrameOffline, mixAudioClips,
      dispatchMidiClips, TrackSynthManager.process_sample, TrackSynthManager.find_synth,
      demoFrameSt, TrackSynthManager.new, demoTrackSnap, demoClip, demoMasterSnap,
      AudioClip.get_sample, ratToU64, processFxChain, emptyEffects,
      masterStageOffline, applyLimiter, identityLimiter, Effect.process_frame]
  · norm_num [realtimeBuffer, List.range_succ, List.range_zero,
      realtimeFrame, mixTracksRealtime, processTrackFrameRealtime, mixAudioClips,
      dispatchMidiClips, TrackSynthManager.process_sample, TrackSynthManager.find_synth,
      demoFrameSt, TrackSynthManager.new, demoTrackSnap, demoClip, demoMasterSnap,
      AudioClip.get_sample, ratToU64, processFxChain, emptyEffects,
      masterStageRealtime, applyLimiter, identityLimiter, Effect.process_frame,
      Recorder.process_frame, demoRecorder, Recorder.new]
  · have htf : ratToU64 ((1 : ℚ) / 48000 * ((TARGET_SAMPLE_RATE : ℕ) : ℚ)) = 1 := by
      have he : ((1 : ℚ) / 48000 * ((TARGET_SAMPLE_RATE : ℕ) : ℚ)) = ((1 : ℕ) : ℚ) := by
        norm_num [TARGET_SAMPLE_RATE]
      rw [he, ratToU64_natCast]
    simp only [renderOffline]
    rw [htf]
    norm_num [List.range_succ, List.range_zero,
      offlineFrame, mixTracksOffline, processTrackFrameOffline, mixAudioClips,
      dispatchMidiClips, TrackSynthManager.process_sample, TrackSynthManager.find_synth,
      demoFrameSt, TrackSynthManager.new, demoTrackSnap, demoClip, demoMasterSnap,
      AudioClip.get_sample, ratToU64, processFxChain, emptyEffects,
      masterStageOffline, applyLimiter, identityLimiter, Effect.process_frame]

/-- `Envelope::process` never changes the envelope parameters. -/
theorem env_params_const (e : Envelope) : (e.process).1.params = e.params := by
  cases he : e.state <;> simp [Envelope.process, he] <;> split_ifs <;> rfl

/-- One `process` step from Release: either the envelope retires to Idle,
or it stays in Release with the time advanced by one sample and a
nonnegative level. -/
theorem env_release_step (e : Envelope) (hst : e.state = EnvelopeState.Release)
    (_hlv : 0 ≤ e.level) :
    (e.process).1.state = EnvelopeState.Idle
    ∨ ((e.process).1.state = EnvelopeState.Release
        ∧ (e.process).1.time = e.time + 1
        ∧ 0 ≤ (e.process).1.level) := by
  simp only [Envelope.process, hst]
  split_ifs with h1 h2
  · exact Or.inl rfl
  · refine Or.inr ⟨rfl, rfl, ?_⟩
    have : (1 : ℚ) / 10000 < e.level * (1 - e.time / (e.params.release * SAMPLE_RATE)) :=
      lt_of_not_le h2
    simp only
    linarith
  · exact Or.inl rfl

/-- Once the Release time has reached the release length in samples, the
next `process` step retires the envelope to Idle. -/
theorem env_release_dead (e : Envelope) (hst : e.state = EnvelopeState.Release)
    (hlv : 0 ≤ e.level) (ht : e.params.release * SAMPLE_RATE ≤ e.time) :
    (e.process).1.state = EnvelopeState.Idle := by
  simp only [Envelope.process, hst]
  split_ifs with h1 h2
  · rfl
  · exfalso
    apply h2
    have hfac : 1 - e.time / (e.params.release * SAMPLE_RATE) ≤ 0 := by
      have := (one_le_div h1).mpr ht
      linarith
    have : e.level * (1 - e.time / (e.params.release * SAMPLE_RATE)) ≤ 0 :=
      mul_nonpos_of_nonneg_of_nonpos hlv hfac
    linarith
  · rfl

/-- `TrackVoice::process` with a live envelope: the active flag is kept and
the envelope advances by one `Envelope::process` step. -/
theorem voice_process_active (R : RealOps) (v : TrackVoice)
    (h : v.envelope.is_active = true) :
    (v.process R).1.is_active = v.is_active
    ∧ (v.process R).1.envelope = (v.envelope.process).1 := by
  simp [TrackVoice.process, h]

/-- An inactive voice is untouched by `process_sample`. -/
theorem voiceStep_inactive (R : RealOps) (v : TrackVoice)
    (h : v.is_active = false) : voiceStep R v = v := by
  simp [voiceStep, h]

/-- A voice whose envelope has retired is deactivated by the next
processing step, with the envelope staying Idle. -/
theorem voiceStep_envelope_idle (R : RealOps) (v : TrackVoice)
    (h : v.envelope.state = EnvelopeState.Idle) :
    (voiceStep R v).is_active = false
    ∧ (voiceStep R v).envelope.state = EnvelopeState.Idle := by
  by_cases ha : v.is_active
  · have henv : v.envelope.is_active = false := by
      simp [Envelope.is_active, h]
    simp [voiceStep, ha, TrackVoice.process, henv, h]
  · have ha' : v.is_active = false := by simpa using ha
    simp [voiceStep_inactive R v ha', ha', h]

/-- Once the envelope is Idle, every later iterate of the processing step
leaves the voice inactive. -/
theorem voiceStep_iter_idle (R : RealOps) :
    ∀ (j : ℕ) (v : TrackVoice), v.envelope.state = EnvelopeState.Idle →
      ((voiceStep R)^[j + 1] v).is_active = false
  | 0, v, h => by
      simpa using (voiceStep_envelope_idle R v h).1
  | j + 1, v, h => by
      rw [Function.iterate_succ_apply]
      exact voiceStep_iter_idle R j (voiceStep R v) (voiceStep_envelope_idle R v h).2

/-- A voice in Release with nonnegative level is inactive after
`k + 2` processing steps whenever the release length is at most
`time + k`: the release envelope retires within that horizon and the
following step marks the voice inactive. -/
theorem voice_release_dies (R : RealOps) :
    ∀ (k : ℕ) (v : TrackVoice), v.envelope.state = EnvelopeState.Release →
      0 ≤ v.envelope.level →
      v.envelope.params.release * SAMPLE_RATE ≤ v.envelope.time + (k : ℚ) →
      ((voiceStep R)^[k + 2] v).is_active = false := by
  intro k
  induction k with
  | zero =>
      intro v hst hlv hk
      by_cases ha : v.is_active
      · have henv : v.envelope.is_active = true := by
          simp [Envelope.is_active, hst]
        have hv1 := voice_process_active R v henv
        have hstep : voiceStep R v = (v.process R).1 := by simp [voiceStep, ha]
        have hidle : (voiceStep R v).envelope.state = EnvelopeState.Idle := by
          rw [hstep, hv1.2]
          exact env_release_dead v.envelope hst hlv (by simpa using hk)
        rw [show (0 + 2 : ℕ) = 1 + 1 from rfl, Function.iterate_succ_apply]
        exact voiceStep_iter_idle R 0 (voiceStep R v) hidle
      · have ha' : v.is_active = false := by simpa using ha
        rw [Function.iterate_fixed (voiceStep_inactive R v ha')]
        exact ha'
  | succ k ih =>
      intro v hst hlv hk
      by_cases ha : v.is_active
      · have henv : v.envelope.is_active = true := by
          simp [Envelope.is_active, hst]
        have hv1 := voice_process_active R v henv
        have hstep : voiceStep R v = (v.process R).1 := by simp [voiceStep, ha]
        rcases env_release_step v.envelope hst hlv with hidle | ⟨hrel, htime, hlev⟩
        · have hidle' : (voiceStep R v).envelope.state = EnvelopeState.Idle := by
            rw [hstep, hv1.2]; exact hidle
          rw [show (k + 1 + 2 : ℕ) = (k + 2) + 1 from rfl, Function.iterate_succ_apply]
          exact voiceStep_iter_idle R (k + 1) (voiceStep R v) hidle'
        · have hparams : (voiceStep R v).envelope.params = v.envelope.params := by
            rw [hstep, hv1.2]; exact env_params_const v.envelope
          have hst' : (voiceStep R v).envelope.state = EnvelopeState.Release := by
            rw [hstep, hv1.2]; exact hrel
          have hlv' : 0 ≤ (voiceStep R v).envelope.level := by
            rw [hstep, hv1.2]; exact hlev
          have htime' : (voiceStep R v).envelope.time = v.envelope.time + 1 := by
            rw [hstep, hv1.2]; exact htime
          have hk' : (voiceStep R v).envelope.params.release * SAMPLE_RATE
              ≤ (voiceStep R v).envelope.time + (k : ℚ) := by
            rw [hparams, htime']
            push_cast at hk ⊢
            linarith
          rw [show (k + 1 + 2 : ℕ) = (k + 2) + 1 from rfl, Function.iterate_succ_apply]
          exact ih (voiceStep R v) hst' hlv' hk'
      · have ha' : v.is_active = false := by simpa using ha
        rw [Function.iterate_fixed (voiceStep_inactive R v ha')]
        exact ha'

/-- The voice list produced by one `process_sample` call is the pointwise
`voiceStep` of the previous list. -/
theorem processVoices_fst (R : RealOps) :
    ∀ (l : List TrackVoice) (acc : ℚ),
      (processVoices R l acc).1 = l.map (voiceStep R)
  | [], _ => rfl
  | v :: vs, acc => by
      by_cases ha : v.is_active
      · simp [processVoices, ha, voiceStep, processVoices_fst R vs]
      · have ha' : v.is_active = false := by simpa using ha
        simp [processVoices, ha', voiceStep, processVoices_fst R vs]

/-- `synthStep` acts on the voice bank as a map of `voiceStep`. -/
theorem synthStep_voices (R : RealOps) (s : TrackSynthesizer) :
    (synthStep R s).voices = s.voices.map (voiceStep R) := by
  simp [synthStep, TrackSynthesizer.process_sample, processVoices_fst]

/-- Iterated `process_sample` calls act voicewise. -/
theorem synth_iter_voices (R : RealOps) :
    ∀ (k : ℕ) (s : TrackSynthesizer),
      ((synthStep R)^[k] s).voices = s.voices.map ((voiceStep R)^[k])
  | 0, s => by simp
  | k + 1, s => by
      rw [Function.iterate_succ_apply, synth_iter_voices R k, synthStep_voices,
        List.map_map, ← Function.iterate_succ]

/-- When no voice is active, the voice loop is the identity and sums to
zero. -/
theorem processVoices_all_inactive (R : RealOps) :
    ∀ (l : List TrackVoice) (acc : ℚ), (∀ v ∈ l, v.is_active = false) →
      processVoices R l acc = (l, acc)
  | [], _, _ => rfl
  | v :: vs, acc, h => by
      have hv : v.is_active = false := h v (by simp)
      have hrest := processVoices_all_inactive R vs acc fun w hw => h w (by simp [hw])
      simp [processVoices, hv, hrest]

/-- C8: on a per-track synthesizer, (1) immediately after `note_on` at
least one voice is active; (2) `note_off` keeps every voice's active flag
(the released voice keeps being mixed); (3) a processing step on an active
voice whose release envelope is still above the 1/10000 threshold leaves
it active; (4) a voice in Release is marked inactive once the number of
`process_sample` calls exceeds its release time in samples; (5) a
synthesizer with no active voice is untouched by `process_sample` and
outputs exactly 0. -/
theorem synth_voice_lifecycle (R : RealOps) :
    (∀ (s : TrackSynthesizer) (note vel : ℕ), s.voices ≠ [] →
        1 ≤ (s.note_on R note vel).active_voice_count)
    ∧ (∀ (s : TrackSynthesizer) (note vel : ℕ),
        (s.note_off note vel).active_voice_count = s.active_voice_count)
    ∧ (∀ v : TrackVoice, v.is_active = true →
        v.envelope.state = EnvelopeState.Release →
        0 ≤ v.envelope.level →
        1 / 10000 < v.envelope.level
          * (1 - v.envelope.time / (v.envelope.params.release * SAMPLE_RATE)) →
        0 < v.envelope.params.release * SAMPLE_RATE →
        (voiceStep R v).is_active = true)
    ∧ (∀ (s : TrackSynthesizer) (i k : ℕ) (v : TrackVoice),
        s.voices.get? i = some v →
        v.envelope.state = EnvelopeState.Release →
        0 ≤ v.envelope.level →
        v.envelope.params.release * SAMPLE_RATE ≤ v.envelope.time + (k : ℚ) →
        ∃ w, ((synthStep R)^[k + 2] s).voices.get? i = some w ∧ w.is_active = false)
    ∧ (∀ s : TrackSynthesizer, (∀ v ∈ s.voices, v.is_active = false) →
        s.process_sample R = (s, 0)) := by
  refine ⟨?_, ?_, ?_, ?_, ?_⟩
  · intro s note vel hne
    have hlen : 0 < s.voices.length := List.length_pos.mpr hne
    have hi : s.find_free_voice_index < s.voices.length := by
      simp only [TrackSynthesizer.find_free_voice_index]
      split_ifs with h'
      · exact h'
      · exact hlen
    obtain ⟨v, hv⟩ : ∃ v, s.voices.get? s.find_free_voice_index = some v := by
      rw [List.get?_eq_get hi]
      exact ⟨_, rfl⟩
    simp only [TrackSynthesizer.note_on]
    rw [hv]
    have hmem : v.note_on R note vel ∈ s.voices.set s.find_free_voice_index (v.note_on R note vel) :=
      mem_set_self _ _ _ hi
    have : 0 < (s.voices.set s.find_free_voice_index (v.note_on R note vel)).countP
        (fun w => w.is_active) :=
      List.countP_pos.mpr ⟨v.note_on R note vel, hmem, by simp [TrackVoice.note_on]⟩
    simpa [TrackSynthesizer.active_voice_count] using this
  · intro s note vel
    simp only [TrackSynthesizer.note_off, TrackSynthesizer.active_voice_count,
      List.countP_map]
    apply List.countP_congr
    intro v _
    by_cases h : v.is_active = true ∧ v.note = note
    · simp [Function.comp, h, TrackVoice.note_off, h.1]
    · simp [Function.comp, h]
  · intro v ha hst _ _ _
    have henv : v.envelope.is_active = true := by
      simp [Envelope.is_active, hst]
    have := (voice_process_active R v henv).1
    simp [voiceStep, ha, this]
  · intro s i k v hv hst hlv hk
    refine ⟨(voiceStep R)^[k + 2] v, ?_, voice_release_dies R k v hst hlv hk⟩
    rw [synth_iter_voices, List.get?_map, hv]
    rfl
  · intro s h
    have hv := processVoices_all_inactive R s.voices 0 h
    simp [TrackSynthesizer.process_sample, hv]

/-- C8 witness: a fresh synthesizer gains an active voice on `note_on`;
`note_off` preserves the active count of `demoReleaseSynth`; its released
voice at level 1/2 survives one step; after 9602 `process_sample` calls
(release time 0.2 s = 9600 samples) the voice is inactive; a fresh
synthesizer (all voices inactive) is a fixpoint of `process_sample` with
output 0. -/
theorem synth_voice_lifecycle_witness :
    1 ≤ ((TrackSynthesizer.new trivialOps 48000).note_on trivialOps 60 100).active_voice_count
    ∧ (demoReleaseSynth.note_off 69 0).active_voice_count = demoReleaseSynth.active_voice_count
    ∧ (voiceStep trivialOps demoReleaseVoice).is_active = true
    ∧ (∃ w, ((synthStep trivialOps)^[9600 + 2] demoReleaseSynth).voices.get? 0 = some w
        ∧ w.is_active = false)
    ∧ (TrackSynthesizer.new trivialOps 48000).process_sample trivialOps
        = (TrackSynthesizer.new trivialOps 48000, 0) := by
  obtain ⟨h1, h2, h3, h4, h5⟩ := synth_voice_lifecycle trivialOps
  refine ⟨?_, ?_, ?_, ?_, ?_⟩
  · exact h1 (TrackSynthesizer.new trivialOps 48000) 60 100
      (by simp [TrackSynthesizer.new, MAX_VOICES])
  · exact h2 demoReleaseSynth 69 0
  · exact h3 demoReleaseVoice rfl rfl (by norm_num [demoReleaseVoice])
      (by norm_num [demoReleaseVoice, EnvelopeParams.default, SAMPLE_RATE])
      (by norm_num [demoReleaseVoice, EnvelopeParams.default, SAMPLE_RATE])
  · exact h4 demoReleaseSynth 0 9600 demoReleaseVoice rfl rfl
      (by norm_num [demoReleaseVoice])
      (by norm_num [demoReleaseVoice, EnvelopeParams.default, SAMPLE_RATE])
  · exact h5 (TrackSynthesizer.new trivialOps 48000)
      (by
        intro v hv
        have hveq : v = TrackVoice.new trivialOps 48000 := by
          simpa [TrackSynthesizer.new, MAX_VOICES] using hv
        rw [hveq]
        rfl)

end SolarAudio
